import Mathlib

/-!
Verification of the Hoxi core detection engine against its specification.

This file shallowly embeds the detection & classification engine:
the velocity analyzer, the signature matcher with CIDR/IP verification,
the fusion classifier, and the processing pipeline's filtering and
log-annotation stages.  JavaScript numbers are modelled as exact
rationals (`ℚ`); `Date` values as integer milliseconds (`Int`);
`Math.sqrt` — a runtime primitive — is passed in as an explicit
function parameter wherever the source calls it.  JavaScript's
stable `Array.prototype.sort` is modelled with a stable insertion
sort (the stable sorted permutation is unique, so any stable sort
is an exact model).

The crawl-pattern analyzer, the session-behavior analyzer and the
legacy `BotDetector` are imported modules whose sources are not part
of the embedded corpus; the classifier is therefore parameterized
over those three functions, and every theorem about the classifier
quantifies over them.
-/

set_option maxHeartbeats 2000000
set_option maxRecDepth 100000

attribute [local semireducible] Rat.add Rat.mul Rat.ofScientific Rat.inv Rat.sub

/-- JavaScript string fallback `x || d` applied to an optional string:
`undefined` and the empty string are falsy. -/
def jsOr (o : Option String) (d : String) : String :=
  match o with
  | none => d
  | some s => if s = "" then d else s

/-- JavaScript truthiness of an optional string, as an option:
`none` for `undefined` and for `""`. -/
def truthyStr (o : Option String) : Option String :=
  match o with
  | none => none
  | some s => if s = "" then none else some s

/-- `Math.min` on two rationals (kernel-reducible). -/
def jsMin (a b : ℚ) : ℚ := if a ≤ b then a else b

/-- `Math.max` on two rationals (kernel-reducible). -/
def jsMax (a b : ℚ) : ℚ := if a ≤ b then b else a

/-- A normalized log entry (`DetectionLogEntry` in `types.ts`), restricted to
the fields the detection engine reads.  `timestamp` is `Date.getTime()`
milliseconds. -/
structure DetectionLogEntry where
  timestamp : Int
  ip_address : Option String := none
  user_agent : Option String := none
  path : Option String := none
  referer : Option String := none
  sessionId : Option String := none
  is_bot : Bool := false
  bot_name : Option String := none
  bot_category : Option String := none
  bytes_transferred : Int := 0
  response_time_ms : Option Int := none
  status_code : Option Int := none
  deriving DecidableEq, Repr

/-- Velocity thresholds (`DetectionConfig['velocityThresholds']`). -/
structure VelocityConfig where
  maxRequestsPerSecond : ℚ
  maxRequestsPerMinute : ℚ
  minIntervalMs : ℚ
  deriving DecidableEq, Repr

/-- The `VelocityAnalyzer` constructor defaults. -/
def defaultVelocityConfig : VelocityConfig :=
  { maxRequestsPerSecond := 5, maxRequestsPerMinute := 100, minIntervalMs := 50 }

/-- `VelocityAnalysis` result record. -/
structure VelocityAnalysis where
  ip : String
  requestsPerSecond : ℚ
  requestsPerMinute : ℚ
  burstScore : ℚ
  isBot : Bool
  confidence : ℚ
  deriving DecidableEq, Repr

/-- `requests.sort((a, b) => a.timestamp - b.timestamp)`: stable ascending
sort by timestamp. -/
def sortedByTimestamp (l : List DetectionLogEntry) : List DetectionLogEntry :=
  List.insertionSort (fun a b => a.timestamp ≤ b.timestamp) l

/-- Timestamp of the last element (callers guarantee nonemptiness;
`0` is an unreachable default). -/
def lastTimestamp : List DetectionLogEntry → Int
  | [] => 0
  | [e] => e.timestamp
  | _ :: e :: es => lastTimestamp (e :: es)

/-- `getTimeSpanSeconds`: `(last - first) / 1000`, `0` for fewer than two
entries. -/
def getTimeSpanSeconds (l : List DetectionLogEntry) : ℚ :=
  match l with
  | [] => 0
  | [_] => 0
  | e :: e2 :: es => ((lastTimestamp (e :: e2 :: es) - e.timestamp : Int) : ℚ) / 1000

/-- `calculateIntervals`: consecutive timestamp deltas in milliseconds. -/
def calculateIntervals : List DetectionLogEntry → List Int
  | [] => []
  | [_] => []
  | a :: b :: rest => (b.timestamp - a.timestamp) :: calculateIntervals (b :: rest)

/-- The interval list the analyzer derives from a request group
(sort, then consecutive deltas). -/
def sessionIntervals (l : List DetectionLogEntry) : List Int :=
  calculateIntervals (sortedByTimestamp l)

/-- `calculateMean`. -/
def calculateMean (vs : List ℚ) : ℚ :=
  if vs = [] then 0 else vs.sum / vs.length

/-- Variance used inside `calculateStandardDeviation`
(mean of squared deviations). -/
def calculateVariance (vs : List ℚ) (avg : ℚ) : ℚ :=
  calculateMean (vs.map (fun v => (v - avg) ^ 2))

/-- `calculateStandardDeviation`, with `Math.sqrt` passed explicitly. -/
def calculateStandardDeviation (sqrtFn : ℚ → ℚ) (vs : List ℚ) (avg : ℚ) : ℚ :=
  sqrtFn (calculateVariance vs avg)

/-- Intervals as rationals. -/
def intervalsQ (l : List Int) : List ℚ := l.map (fun i => (i : ℚ))

/-- `stdDev / mean || 0`.  (With nonnegative values a zero mean forces a zero
standard deviation, so the `Infinity` branch of the JavaScript division is
unreachable; `NaN` from `0/0` maps to `0` via `|| 0`.) -/
def coefficientOfVariation (stdDev mean : ℚ) : ℚ :=
  if mean = 0 then 0 else stdDev / mean

/-- `detectBurstPatterns`: fraction of runs of ≥ 3 consecutive sub-1000 ms
intervals, normalized by `ceil(length / 10)`. -/
def detectBurstPatterns (intervals : List Int) : ℚ :=
  if intervals.length < 5 then 0
  else
    let step : Int × Int → Int → Int × Int := fun bc i =>
      if i < 1000 then (bc.1, bc.2 + 1)
      else (if bc.2 ≥ 3 then bc.1 + 1 else bc.1, 0)
    let r := intervals.foldl step (0, 0)
    let burstCount := if r.2 ≥ 3 then r.1 + 1 else r.1
    jsMin 1 ((burstCount : ℚ) / (((intervals.length + 9) / 10 : Nat) : ℚ))

/-- The count of intervals below `minIntervalMs` (shared by
`calculateBurstScore` and `isBotLikeVelocity`). -/
def fastIntervalCount (cfg : VelocityConfig) (intervals : List Int) : Nat :=
  (intervals.filter (fun i => decide ((i : ℚ) < cfg.minIntervalMs))).length

/-- `calculateBurstScore`: 0.4/0.4/0.2 blend of consistency, speed and burst
patterns. -/
def calculateBurstScore (sqrtFn : ℚ → ℚ) (cfg : VelocityConfig)
    (intervals : List Int) : ℚ :=
  match intervals with
  | [] => 0
  | _ =>
    let vs := intervalsQ intervals
    let mean := calculateMean vs
    let stdDev := calculateStandardDeviation sqrtFn vs mean
    let coefficient := coefficientOfVariation stdDev mean
    let consistencyScore := jsMax 0 (1 - coefficient * 2)
    let fastIntervals := fastIntervalCount cfg intervals
    let speedScore := (fastIntervals : ℚ) / (intervals.length : ℚ)
    let burstPatternScore := detectBurstPatterns intervals
    jsMin 1 (consistencyScore * 0.4 + speedScore * 0.4 + burstPatternScore * 0.2)

/-- `Math.round(interval / 100) * 100` for integer millisecond intervals
(JavaScript rounds half toward positive infinity: `floor(x + 1/2)`). -/
def roundedBucket (i : Int) : Int := ((i + 50).fdiv 100) * 100

/-- Count of the single most common 100 ms-rounded interval bucket
(`Math.max(...intervalCounts.values())`; `0` stands in for the empty
`-Infinity` case, where every comparison below is false as in JavaScript). -/
def maxBucketCount (intervals : List Int) : Nat :=
  (intervals.map
    (fun i => intervals.countP (fun j => roundedBucket j == roundedBucket i))).foldl max 0

/-- `isBotLikeVelocity`: the five-way disjunction of bot indicators. -/
def isBotLikeVelocity (cfg : VelocityConfig) (reqPerSec reqPerMin : ℚ)
    (intervals : List Int) (burstScore : ℚ) : Bool :=
  decide (reqPerSec > cfg.maxRequestsPerSecond) ||
  decide (reqPerMin > cfg.maxRequestsPerMinute) ||
  decide (burstScore > 0.8) ||
  decide ((fastIntervalCount cfg intervals : ℚ) > (intervals.length : ℚ) * 0.5) ||
  decide ((maxBucketCount intervals : ℚ) > (intervals.length : ℚ) * 0.7)

/-- `calculateConfidence`: base 0.5 boosted by sample size, observation span
and timing consistency, capped at 1. -/
def calculateConfidence (sqrtFn : ℚ → ℚ) (sampleSize : Nat) (timeSpan : ℚ)
    (intervals : List Int) : ℚ :=
  let c0 : ℚ := 0.5
  let c1 := if sampleSize ≥ 10 then c0 + 0.2 else c0
  let c2 := if sampleSize ≥ 50 then c1 + 0.1 else c1
  let c3 := if sampleSize ≥ 100 then c2 + 0.1 else c2
  let c4 := if timeSpan ≥ 60 then c3 + 0.1 else c3
  let c5 := if timeSpan ≥ 300 then c4 + 0.1 else c4
  let c7 :=
    if intervals.length > 5 then
      let vs := intervalsQ intervals
      let mean := calculateMean vs
      let stdDev := calculateStandardDeviation sqrtFn vs mean
      let coefficient := coefficientOfVariation stdDev mean
      let c6 := if coefficient < 0.1 then c5 + 0.1 else c5
      if coefficient < 0.2 then c6 + 0.05 else c6
    else c5
  jsMin 1 c7

/-- `analyzeIPVelocity`: full velocity analysis of one IP's request group. -/
def analyzeIPVelocity (sqrtFn : ℚ → ℚ) (cfg : VelocityConfig) (ip : String)
    (requests : List DetectionLogEntry) : VelocityAnalysis :=
  match requests with
  | [] =>
    { ip := ip, requestsPerSecond := 0, requestsPerMinute := 0, burstScore := 0,
      isBot := false, confidence := 1 }
  | _ =>
    let sorted := sortedByTimestamp requests
    let timeSpan := getTimeSpanSeconds sorted
    let intervals := calculateIntervals sorted
    let requestsPerSecond := if timeSpan > 0 then (sorted.length : ℚ) / timeSpan else 0
    let requestsPerMinute := requestsPerSecond * 60
    let burstScore := calculateBurstScore sqrtFn cfg intervals
    let isBot := isBotLikeVelocity cfg requestsPerSecond requestsPerMinute intervals burstScore
    let confidence := calculateConfidence sqrtFn sorted.length timeSpan intervals
    { ip := ip, requestsPerSecond := requestsPerSecond,
      requestsPerMinute := requestsPerMinute, burstScore := burstScore,
      isBot := isBot, confidence := confidence }

/-- `log.ip_address || 'unknown'`. -/
def ipKeyOf (e : DetectionLogEntry) : String := jsOr e.ip_address "unknown"

/-- `log.user_agent || 'unknown'`. -/
def uaKeyOf (e : DetectionLogEntry) : String := jsOr e.user_agent "unknown"

/-- Keys of a grouping pass in first-occurrence order (JavaScript object /
`Map` insertion order; the grouping keys here contain non-integer characters,
so plain insertion order applies). -/
def dedupKeys (ks : List String) : List String :=
  ks.foldl (fun acc k => if acc.contains k then acc else acc ++ [k]) []

/-- `groupByIP`: partition entries by `ip_address || 'unknown'`, group
contents in original order. -/
def groupByIP (entries : List DetectionLogEntry) :
    List (String × List DetectionLogEntry) :=
  (dedupKeys (entries.map ipKeyOf)).map
    (fun k => (k, entries.filter (fun e => decide (ipKeyOf e = k))))

/-- `analyzeVelocity`: per-IP velocity analyses for a group of entries. -/
def analyzeVelocity (sqrtFn : ℚ → ℚ) (cfg : VelocityConfig)
    (entries : List DetectionLogEntry) : List VelocityAnalysis :=
  match entries with
  | [] => []
  | e :: es =>
    (groupByIP (e :: es)).map (fun g => analyzeIPVelocity sqrtFn cfg g.1 g.2)

/-! ## Signature matcher (`signature-matcher.ts`) -/

/-- Bot category (`'beneficial' | 'extractive' | 'malicious' | 'unknown'`). -/
inductive BotCategory
  | beneficial | extractive | malicious | unknown
  deriving DecidableEq, Repr

/-- Impact level (`'low' | 'medium' | 'high' | 'extreme'`). -/
inductive BotImpact
  | low | medium | high | extreme
  deriving DecidableEq, Repr

/-- Signature / classification metadata bag. -/
structure BotMetadata where
  operator : Option String := none
  purpose : Option String := none
  respectsRobotsTxt : Option Bool := none
  averageCrawlRate : Option ℚ := none
  crawlPatterns : Option (List String) := none
  deriving DecidableEq, Repr

/-- `BotClassification` output record. -/
structure BotClassification where
  botName : Option String
  category : BotCategory
  subcategory : Option String := none
  confidence : ℚ
  verified : Bool
  impact : BotImpact
  metadata : BotMetadata
  deriving DecidableEq, Repr

/-- Verification hints of a signature.  The regex values are modelled as
string predicates; the matcher only ever tests their presence. -/
structure SignatureVerification where
  reverseDns : Option (List (String → Bool)) := none
  headers : Option (List (String × (String → Bool))) := none

/-- `EnhancedBotSignature`; user-agent regex patterns are modelled as
string predicates. -/
structure EnhancedBotSignature where
  name : String
  category : BotCategory
  subcategory : String
  patterns : List (String → Bool)
  ipRanges : Option (List String) := none
  impact : BotImpact
  metadata : BotMetadata
  verification : Option SignatureVerification := none

/-- Value of the nonempty decimal-digit prefix of a character list. -/
def parseLeadingDigits (cs : List Char) : Option Nat :=
  let ds := cs.takeWhile (fun c => c.isDigit)
  if ds = [] then none
  else some (ds.foldl (fun acc c => acc * 10 + (c.toNat - '0'.toNat)) 0)

/-- JavaScript `parseInt(s)` restricted to the decimal shapes the matcher
feeds it (optionally signed digit prefixes; `none` models `NaN`).
The hexadecimal `0x` form and leading whitespace of the builtin are
irrelevant to dotted-quad and prefix-length inputs. -/
def parseIntJS (s : String) : Option Int :=
  match s.data with
  | '-' :: rest => (parseLeadingDigits rest).map (fun n => -(n : Int))
  | '+' :: rest => (parseLeadingDigits rest).map (fun n => (n : Int))
  | cs => (parseLeadingDigits cs).map (fun n => (n : Int))

/-- JavaScript `x << n` for `x` in `[0, 255]`: 32-bit shift with *signed*
reinterpretation of the result (so `x << 24` is negative for `x ≥ 128`). -/
def js32shl (x : Int) (n : Nat) : Int :=
  let r := (x * 2 ^ n) % 4294967296
  if r ≥ 2147483648 then r - 4294967296 else r

/-- `String.split` on a single-character separator, on character lists
(agrees with the JavaScript split the source performs). -/
def splitOnChar (sep : Char) : List Char → List (List Char)
  | [] => [[]]
  | c :: cs =>
    if c = sep then [] :: splitOnChar sep cs
    else
      match splitOnChar sep cs with
      | h :: t => (c :: h) :: t
      | [] => [[c]]

/-- `ipToBigInt`: parse a dotted-quad IPv4 address to the (signed-shift)
integer the source computes.  IPv6 and malformed inputs yield `none`
(the JavaScript `NaN` octet path throws inside `BigInt()` and is caught). -/
def ipToBigInt (ip : String) : Option Int :=
  if ip.data.contains '.' then
    let parts := (splitOnChar '.' ip.data).map (fun cs => parseIntJS (String.mk cs))
    if parts.length ≠ 4 then none
    else if parts.any (fun p => match p with
      | some v => decide (v < 0) || decide (v > 255)
      | none => false) then none
    else if parts.any (fun p => p.isNone) then none
    else match parts with
      | [some a, some b, some c, some d] =>
        some (js32shl a 24 + js32shl b 16 + js32shl c 8 + d)
      | _ => none
  else none

/-- A parsed CIDR range as the source represents it. -/
structure IPRange where
  lo : Int
  hi : Int
  cidr : String
  deriving DecidableEq, Repr

/-- `parseCIDR`: split on `/`, guard the prefix length, and build the
`BigInt` range.  The mask `0xFFFFFFFFn << (32n - prefix)` is a run of 32
one-bits starting at bit `32 - prefix`, so the two's-complement BigInt
`ip & mask` equals bits `(32-prefix)..(63-prefix)` of `ip` — the
floor-division/mod form below — and, `start` being a multiple of
`2 ^ (32 - prefix)`, `start | (0xFFFFFFFFn >> prefix)` equals
`start + (2 ^ (32 - prefix) - 1)`. -/
def parseCIDR (cidr : String) : Option IPRange :=
  let parts := (splitOnChar '/' cidr.data).map String.mk
  let ipStr := parts.headD ""
  match match parts.get? 1 with | none => none | some s => parseIntJS s with
  | none => none
  | some p =>
    if p < 0 ∨ p > 32 then none
    else match ipToBigInt ipStr with
      | none => none
      | some v =>
        let k : Nat := (32 - p).toNat
        let lo := ((v.fdiv (2 ^ k)) % 4294967296) * 2 ^ k
        let hi := lo + (2 ^ k - 1)
        some { lo := lo, hi := hi, cidr := cidr }

/-- `isIPInRanges`: membership of the entry IP in any declared CIDR range
(the per-CIDR cache is pure memoization and is transparent here). -/
def isIPInRanges (ip : String) (cidrs : List String) : Bool :=
  match ipToBigInt ip with
  | none => false
  | some v =>
    cidrs.any (fun c =>
      match parseCIDR c with
      | none => false
      | some r => decide (r.lo ≤ v) && decide (v ≤ r.hi))

/-- ASCII lowercasing (models the `/i` regex flag on ASCII patterns). -/
def asciiLower (c : Char) : Char :=
  if 'A' ≤ c ∧ c ≤ 'Z' then Char.ofNat (c.toNat + 32) else c

/-- Lowercased character list of a string. -/
def lowerChars (s : String) : List Char := s.data.map asciiLower

/-- Whether `needle` occurs at the head of `hay`. -/
def startsWithChars : List Char → List Char → Bool
  | [], _ => true
  | _ :: _, [] => false
  | a :: as, b :: bs => a == b && startsWithChars as bs

/-- Whether `needle` occurs anywhere in `hay`. -/
def containsSubList (needle : List Char) : List Char → Bool
  | [] => startsWithChars needle []
  | c :: cs => startsWithChars needle (c :: cs) || containsSubList needle cs

/-- Case-insensitive substring test (regex `/needle/i` for literal needles). -/
def containsCI (needle hay : String) : Bool :=
  containsSubList (lowerChars needle) (lowerChars hay)

/-- The `[\d.]` character class. -/
def isDigitDot (c : Char) : Bool := c.isDigit || c == '.'

/-- Test for `needle` immediately followed by a `[\d.]` character, anywhere. -/
def matchSlashVersion (needle : List Char) : List Char → Bool
  | [] => false
  | c :: cs =>
    (startsWithChars needle (c :: cs) &&
      (match (c :: cs).drop needle.length with
       | d :: _ => isDigitDot d
       | [] => false)) ||
    matchSlashVersion needle cs

/-- Regex `/Name\/[\d.]+/i`: the name, a slash, then at least one digit/dot. -/
def testNameSlashVersion (name ua : String) : Bool :=
  matchSlashVersion (lowerChars (name ++ "/")) (lowerChars ua)

/-- Regex `/\/[\d.]+$/`: the user agent ends in a slash-version suffix. -/
def endsWithSlashVersion (ua : String) : Bool :=
  let rev := ua.data.reverse
  let ds := rev.takeWhile isDigitDot
  (!ds.isEmpty) &&
    (match rev.drop ds.length with
     | '/' :: _ => true
     | _ => false)

/-- The `\w` character class. -/
def isWordChar (c : Char) : Bool := c.isAlphanum || c == '_'

/-- Regex `/^Mozilla\/5\.0 \(compatible\; \w+\)$/` (case-sensitive). -/
def genericCompatUA (ua : String) : Bool :=
  let p := "Mozilla/5.0 (compatible; ".data
  startsWithChars p ua.data &&
    (let rest := ua.data.drop p.length
     let ws := rest.takeWhile isWordChar
     (!ws.isEmpty) && rest.drop ws.length == [')'])

/-- The suspicious generic-library patterns
(`Mozilla/5.0 (compatible; X)`, `python-requests`, `curl`, `wget`). -/
def suspiciousUA (ua : String) : Bool :=
  genericCompatUA ua || containsCI "python-requests" ua ||
    containsCI "curl" ua || containsCI "wget" ua

/-- `userAgent.length > 20 && userAgent.includes('/')`. -/
def isCompleteUA (ua : String) : Bool :=
  decide (ua.data.length > 20) && ua.data.contains '/'

/-- First registered signature one of whose user-agent patterns matches
(registration-order iteration of `matchEnhancedSignature`). -/
def findFirstMatch (reg : List EnhancedBotSignature) (ua : String) :
    Option EnhancedBotSignature :=
  reg.find? (fun s => s.patterns.any (fun p => p ua))

/-- The `ipVerified` flag: ranges declared, IP present (truthy) and inside
one of the ranges. -/
def sigIPVerified (sig : EnhancedBotSignature) (ip : Option String) : Bool :=
  match sig.ipRanges, truthyStr ip with
  | some ranges, some i => isIPInRanges i ranges
  | _, _ => false

/-- The `ipSpoof` flag: ranges declared and IP present but not verified. -/
def sigIPSpoof (sig : EnhancedBotSignature) (ip : Option String) : Bool :=
  (sig.ipRanges.isSome && (truthyStr ip).isSome) && !(sigIPVerified sig ip)

/-- Confidence before the additional verification heuristics
(0.75 pattern-only; with declared ranges: 0.95 verified / 0.3 spoof /
0.6 no IP to check). -/
def sigBaseConfidence (sig : EnhancedBotSignature) (ip : Option String) : ℚ :=
  if sig.ipRanges.isSome then
    (if sigIPVerified sig ip then 0.95
     else if sigIPSpoof sig ip then 0.3
     else 0.6)
  else 0.75

/-- `applyAdditionalVerification`: reverse-DNS proxy (+0.05 for a
slash-version suffix), header proxy (+0.05 for a complete UA), generic-library
penalty (−0.2 floored at 0.1), capped at 1. -/
def applyAdditionalVerification (baseConfidence : ℚ)
    (sig : EnhancedBotSignature) (ua : String) : ℚ :=
  let c1 :=
    match sig.verification with
    | some v =>
      if v.reverseDns.isSome then
        (if endsWithSlashVersion ua then baseConfidence + 0.05 else baseConfidence)
      else baseConfidence
    | none => baseConfidence
  let c2 :=
    match sig.verification with
    | some v =>
      if v.headers.isSome then (if isCompleteUA ua then c1 + 0.05 else c1) else c1
    | none => c1
  let c3 := if suspiciousUA ua then jsMax 0.1 (c2 - 0.2) else c2
  jsMin 1 c3

/-- The classification built from a matched signature. -/
def classifyFromSignature (sig : EnhancedBotSignature) (ua : String)
    (ip : Option String) : BotClassification :=
  { botName := some sig.name
    category := sig.category
    subcategory := some sig.subcategory
    confidence := applyAdditionalVerification (sigBaseConfidence sig ip) sig ua
    verified := sigIPVerified sig ip
    impact := sig.impact
    metadata := sig.metadata }

/-- `matchEnhancedSignature`. -/
def matchEnhancedSignature (reg : List EnhancedBotSignature) (ua : String)
    (ip : Option String) : Option BotClassification :=
  (findFirstMatch reg ua).map (fun sig => classifyFromSignature sig ua ip)

/-- Modelled from the spec: the result shape of the legacy substring-based
`BotDetector.detect` (its source is not in the corpus; only this shape is
consumed by `convertBasicToClassification`). -/
structure BasicDetection where
  isBot : Bool
  botName : Option String := none
  category : Option String := none
  confidence : ℚ := 0
  severity : Option String := none
  description : Option String := none

/-- The fixed legacy-category lookup table
(`categoryMap[basicResult.category || 'unknown'] || 'unknown'`). -/
def mapBasicCategory (c : Option String) : BotCategory :=
  match jsOr c "unknown" with
  | "search_engine" => .beneficial
  | "social_media" => .beneficial
  | "monitoring" => .beneficial
  | "ai_training" => .extractive
  | "ai_scraper" => .extractive
  | "ai_search" => .extractive
  | "scraper" => .malicious
  | "seo_tool" => .malicious
  | _ => .unknown

/-- `mapSeverityToImpact` with its `'medium'` defaults. -/
def mapSeverityToImpact (severity : Option String) : BotImpact :=
  match jsOr severity "medium" with
  | "low" => .low
  | "medium" => .medium
  | "high" => .high
  | "critical" => .extreme
  | _ => .medium

/-- `convertBasicToClassification` (the unused `ip` parameter is kept). -/
def convertBasicToClassification (basic : BasicDetection)
    (_ip : Option String) : BotClassification :=
  let category := mapBasicCategory basic.category
  { botName := basic.botName
    category := category
    subcategory := truthyStr basic.category
    confidence := basic.confidence
    verified := false
    impact := mapSeverityToImpact basic.severity
    metadata :=
      { operator := some "Unknown"
        purpose := some (jsOr basic.description "Unknown")
        respectsRobotsTxt := some (category == BotCategory.beneficial) } }

/-- `matchSignature`: enhanced match first, then the legacy detector
fallback.  The loaded registry and the legacy detector are parameters
(registry state after initialization; detector source not in corpus). -/
def matchSignature (reg : List EnhancedBotSignature)
    (detect : String → BasicDetection) (entry : DetectionLogEntry) :
    Option BotClassification :=
  let userAgent := jsOr entry.user_agent ""
  let ip := entry.ip_address
  match matchEnhancedSignature reg userAgent ip with
  | some c => some c
  | none =>
    let basic := detect userAgent
    if basic.isBot then some (convertBasicToClassification basic ip) else none

/-- Built-in `GPTBot` signature (`initializeEnhancedSignatures`). -/
def gptbotSig : EnhancedBotSignature :=
  { name := "GPTBot", category := .extractive, subcategory := "ai_training"
    patterns := [fun ua => testNameSlashVersion "GPTBot" ua]
    ipRanges := some ["20.171.0.0/16", "20.163.0.0/16"]
    impact := .extreme
    metadata :=
      { operator := some "OpenAI", purpose := some "LLM Training Data Collection"
        respectsRobotsTxt := some false, averageCrawlRate := some 1000
        crawlPatterns := some ["systematic", "deep-crawl"] }
    verification := some
      { reverseDns := some [fun h => h.endsWith ".openai.com"]
        headers := some [("user-agent", fun s => containsCI "GPTBot" s)] } }

/-- Built-in `ChatGPT-User` signature. -/
def chatgptUserSig : EnhancedBotSignature :=
  { name := "ChatGPT-User", category := .extractive, subcategory := "ai_training"
    patterns := [fun ua => containsCI "ChatGPT-User" ua]
    ipRanges := some ["20.171.0.0/16", "40.84.180.0/22"]
    impact := .high
    metadata :=
      { operator := some "OpenAI", purpose := some "ChatGPT Web Browsing"
        respectsRobotsTxt := some true, averageCrawlRate := some 50 } }

/-- Built-in `Googlebot` signature. -/
def googlebotSig : EnhancedBotSignature :=
  { name := "Googlebot", category := .beneficial, subcategory := "search_engine"
    patterns :=
      [fun ua => testNameSlashVersion "Googlebot" ua,
       fun ua => containsCI "Googlebot-Image" ua,
       fun ua => containsCI "Googlebot-News" ua]
    ipRanges := some ["66.249.64.0/19", "66.249.64.0/27", "209.85.128.0/17"]
    impact := .low
    metadata :=
      { operator := some "Google", purpose := some "Search Index Crawling"
        respectsRobotsTxt := some true, averageCrawlRate := some 30 }
    verification := some
      { reverseDns := some
          [fun h => h.endsWith ".googlebot.com", fun h => h.endsWith ".google.com"] } }

/-- Built-in `CCBot` signature. -/
def ccbotSig : EnhancedBotSignature :=
  { name := "CCBot", category := .malicious, subcategory := "ai_scraper"
    patterns := [fun ua => testNameSlashVersion "CCBot" ua]
    ipRanges := some ["54.36.148.0/22", "54.36.149.0/24"]
    impact := .extreme
    metadata :=
      { operator := some "Common Crawl", purpose := some "Mass Data Collection"
        respectsRobotsTxt := some false, averageCrawlRate := some 2000
        crawlPatterns := some ["aggressive", "systematic"] } }

/-- Built-in `Claude-Web` signature. -/
def claudeWebSig : EnhancedBotSignature :=
  { name := "Claude-Web", category := .extractive, subcategory := "ai_training"
    patterns := [fun ua => containsCI "Claude-Web" ua, fun ua => containsCI "anthropic-ai" ua]
    ipRanges := some ["52.70.0.0/15"]
    impact := .high
    metadata :=
      { operator := some "Anthropic", purpose := some "AI Training and Web Browsing"
        respectsRobotsTxt := some true, averageCrawlRate := some 100 } }

/-- The built-in fallback registry, in registration order. -/
def builtinSignatures : List EnhancedBotSignature :=
  [gptbotSig, chatgptUserSig, googlebotSig, ccbotSig, claudeWebSig]

/-! ## Fusion classifier (`classifier.ts`, concatenated into `types.ts`) -/

/-- Fusion weights (`DetectionConfig['confidenceWeights']`). -/
structure ConfidenceWeights where
  velocity : ℚ
  pattern : ℚ
  signature : ℚ
  behavior : ℚ
  deriving DecidableEq, Repr

/-- The `BotClassifier` constructor defaults. -/
def defaultWeights : ConfidenceWeights :=
  { velocity := 0.25, pattern := 0.25, signature := 0.35, behavior := 0.15 }

/-- Crawl pattern type. -/
inductive PatternType
  | sequential | systematic | random | targeted
  deriving DecidableEq, Repr

/-- `CrawlPattern.indicators`. -/
structure PatternIndicators where
  sequentialScore : ℚ
  systematicScore : ℚ
  sitemapAccess : Bool
  depthConsistency : ℚ
  deriving DecidableEq, Repr

/-- `CrawlPattern` (output shape of the pattern analyzer, whose source is
not in the corpus; the classifier only reads these fields). -/
structure CrawlPattern where
  type : PatternType
  confidence : ℚ
  paths : List String
  indicators : PatternIndicators
  deriving DecidableEq, Repr

/-- `SessionBehavior.patterns`. -/
structure BehaviorPatterns where
  viewsHomepage : Bool
  varyingResponseTimes : Bool
  realisticSessionLength : Bool
  deriving DecidableEq, Repr

/-- `SessionBehavior` (output shape of the behavior analyzer, whose source
is not in the corpus; the classifier only reads these fields). -/
structure SessionBehavior where
  sessionId : String
  sessionDuration : ℚ
  pagesViewed : Int
  avgTimePerPage : ℚ
  assetsLoaded : Bool
  hasReferer : Bool
  humanScore : ℚ
  patterns : BehaviorPatterns
  deriving DecidableEq, Repr

/-- A `timeRange` value. -/
structure TimeRange where
  start : Int
  stop : Int
  deriving DecidableEq, Repr

/-- `DetectionResult.analysis`. -/
structure AnalysisBundle where
  velocity : VelocityAnalysis
  pattern : CrawlPattern
  behavior : SessionBehavior
  deriving DecidableEq, Repr

/-- `DetectionResult`: one classified session. -/
structure DetectionResult where
  ip : String
  userAgent : String
  classification : BotClassification
  requestCount : Int
  bandwidth : Int
  timeRange : TimeRange
  analysis : AnalysisBundle
  deriving DecidableEq, Repr

/-- Per-key aggregation cell (`{ requests, bandwidth }`). -/
structure AggEntry where
  requests : Int
  bandwidth : Int
  deriving DecidableEq, Repr

/-- `BotAnalysis.summary`. -/
structure BotSummary where
  totalRequests : Int
  botRequests : Int
  humanRequests : Int
  totalBandwidth : Int
  timeRange : TimeRange
  deriving DecidableEq, Repr

/-- `BotAnalysis.aggregations`; the JavaScript `Record`s are modelled as
association lists in first-insertion order. -/
structure Aggregations where
  byCategory : List (String × AggEntry)
  byImpact : List (String × AggEntry)
  topOffenders : List DetectionResult
  deriving DecidableEq, Repr

/-- `BotAnalysis`: the batch output. -/
structure BotAnalysis where
  summary : BotSummary
  bots : List DetectionResult
  aggregations : Aggregations
  deriving DecidableEq, Repr

/-- `adjustConfidenceWithOtherAnalyses`: the signature-confidence
adjustments, clamped to `[0.1, 1.0]`. -/
def adjustConfidenceWithOtherAnalyses (baseConfidence : ℚ)
    (vel : VelocityAnalysis) (pat : CrawlPattern) (beh : SessionBehavior) : ℚ :=
  let c1 :=
    if vel.isBot then baseConfidence + 0.1
    else if vel.confidence > 0.7 then baseConfidence - 0.1
    else baseConfidence
  let c2 := if pat.confidence > 0.7 then c1 + 0.1 else c1
  let c3 :=
    if beh.humanScore < 0.3 then c2 + 0.1
    else if beh.humanScore > 0.7 then c2 - 0.15
    else c2
  jsMax 0.1 (jsMin 1 c3)

/-- `generateBotName`. -/
def generateBotName (vel : VelocityAnalysis) (pat : CrawlPattern) : String :=
  if vel.requestsPerSecond > 10 then "Aggressive Bot"
  else if pat.type = .systematic then "Systematic Crawler"
  else if pat.type = .sequential then "Sequential Bot"
  else "Unknown Bot"

/-- `determineImpact`. -/
def determineImpact (vel : VelocityAnalysis) (pat : CrawlPattern)
    (confidence : ℚ) : BotImpact :=
  if vel.requestsPerSecond > 10 ∨ vel.requestsPerMinute > 500 then .extreme
  else if vel.requestsPerSecond > 5 ∨ confidence > 0.8 then .high
  else if pat.confidence > 0.7 then .medium
  else .low

/-- `determinePurpose`. -/
def determinePurpose (pat : CrawlPattern) (vel : VelocityAnalysis) : String :=
  if pat.type = .systematic ∧ pat.indicators.sitemapAccess then "Search Engine Crawling"
  else if pat.type = .sequential then "Content Extraction"
  else if vel.requestsPerSecond > 5 then "Mass Data Collection"
  else "Unknown"

/-- `buildClassificationFromAnalyses`: weighted voting over contributing
analyzers, with the rule-cascade category. -/
def buildClassificationFromAnalyses (w : ConfidenceWeights)
    (vel : VelocityAnalysis) (pat : CrawlPattern) (beh : SessionBehavior) :
    BotClassification :=
  let conf1 := if vel.isBot then vel.confidence * w.velocity else 0
  let wsum1 := if vel.isBot then w.velocity else 0
  let conf2 := if pat.confidence > 0.5 then conf1 + pat.confidence * w.pattern else conf1
  let wsum2 := if pat.confidence > 0.5 then wsum1 + w.pattern else wsum1
  let botScore := 1 - beh.humanScore
  let conf3 := if botScore > 0.5 then conf2 + botScore * w.behavior else conf2
  let wsum3 := if botScore > 0.5 then wsum2 + w.behavior else wsum2
  let finalConfidence := if wsum3 > 0 then conf3 / wsum3 else 0
  let catsub : BotCategory × String :=
    if pat.type = .systematic ∧ vel.requestsPerSecond > 2 then (.extractive, "scraper")
    else if vel.requestsPerSecond > 10 then (.malicious, "aggressive_scraper")
    else if pat.type = .sequential then (.extractive, "crawler")
    else (.unknown, "unknown")
  { botName := some (generateBotName vel pat)
    category := catsub.1
    subcategory := some catsub.2
    confidence := finalConfidence
    verified := false
    impact := determineImpact vel pat finalConfidence
    metadata :=
      { operator := some "Unknown"
        purpose := some (determinePurpose pat vel)
        respectsRobotsTxt := some false
        averageCrawlRate := some vel.requestsPerMinute } }

/-- `combineAnalysis`: the signature classification, confidence-adjusted,
when a signature matched; otherwise built from the other analyzers. -/
def combineAnalysis (w : ConfidenceWeights) (vel : VelocityAnalysis)
    (pat : CrawlPattern) (sigOpt : Option BotClassification)
    (beh : SessionBehavior) : BotClassification :=
  match sigOpt with
  | some sig =>
    { sig with confidence := adjustConfidenceWithOtherAnalyses sig.confidence vel pat beh }
  | none => buildClassificationFromAnalyses w vel pat beh

/-- `${log.ip_address || 'unknown'}|${log.user_agent || 'unknown'}`. -/
def sessionKeyOf (e : DetectionLogEntry) : String :=
  ipKeyOf e ++ "|" ++ uaKeyOf e

/-- `groupIntoSessions`: partition by the `ip|user_agent` key, groups in
first-occurrence order, group contents in original order. -/
def groupIntoSessions (logs : List DetectionLogEntry) :
    List (List DetectionLogEntry) :=
  (dedupKeys (logs.map sessionKeyOf)).map
    (fun k => logs.filter (fun e => decide (sessionKeyOf e = k)))

/-- The fallback behavior record of `classifySession`
(`Date.now()` is the `now` parameter). -/
def defaultBehavior (ip : String) (now : Int) (n : Int) : SessionBehavior :=
  { sessionId := ip ++ "_1_" ++ toString now
    sessionDuration := 0
    pagesViewed := n
    avgTimePerPage := 0
    assetsLoaded := false
    hasReferer := false
    humanScore := 0.5
    patterns := { viewsHomepage := false, varyingResponseTimes := false,
                  realisticSessionLength := false } }

/-- `Math.min(...logs.map(l => l.timestamp.getTime()))` (nonempty). -/
def tsMinList : List DetectionLogEntry → Int
  | [] => 0
  | e :: es => es.foldl (fun m x => min m x.timestamp) e.timestamp

/-- `Math.max(...logs.map(l => l.timestamp.getTime()))` (nonempty). -/
def tsMaxList : List DetectionLogEntry → Int
  | [] => 0
  | e :: es => es.foldl (fun m x => max m x.timestamp) e.timestamp

/-- `classifySession`: classify one `ip|user_agent` group.  The pattern
analyzer (`pf`), behavior analyzer (`bf`) and legacy detector (`detect`)
are parameters (sources not in the corpus); the signature registry is the
loaded registry state.  The source throws on an empty group (which
`classify` never produces); that is modelled as `none`. -/
def classifySession (pf : List DetectionLogEntry → CrawlPattern)
    (bf : List DetectionLogEntry → List SessionBehavior)
    (reg : List EnhancedBotSignature) (detect : String → BasicDetection)
    (w : ConfidenceWeights) (sqrtFn : ℚ → ℚ) (cfg : VelocityConfig) (now : Int)
    (sessionLogs : List DetectionLogEntry) : Option DetectionResult :=
  match sessionLogs with
  | [] => none
  | h :: t =>
    let logs := h :: t
    let ip := jsOr h.ip_address "unknown"
    let userAgent := jsOr h.user_agent "unknown"
    let velocityResults := analyzeVelocity sqrtFn cfg logs
    let patternResult := pf logs
    let behaviorResults := bf logs
    let signatureResult := matchSignature reg detect h
    let velocityAnalysis :=
      (velocityResults.find? (fun v => decide (v.ip = ip))).getD
        { ip := ip, requestsPerSecond := 0, requestsPerMinute := 0,
          burstScore := 0, isBot := false, confidence := 0 }
    let primaryBehavior := behaviorResults.headD (defaultBehavior ip now logs.length)
    let finalClassification :=
      combineAnalysis w velocityAnalysis patternResult signatureResult primaryBehavior
    let bandwidth := (logs.map (fun l => l.bytes_transferred)).sum
    some
      { ip := ip
        userAgent := userAgent
        classification := finalClassification
        requestCount := logs.length
        bandwidth := bandwidth
        timeRange := { start := tsMinList logs, stop := tsMaxList logs }
        analysis :=
          { velocity := velocityAnalysis, pattern := patternResult,
            behavior := primaryBehavior } }

/-- `result.classification.subcategory || result.classification.category`. -/
def categoryToString : BotCategory → String
  | .beneficial => "beneficial"
  | .extractive => "extractive"
  | .malicious => "malicious"
  | .unknown => "unknown"

/-- Impact as the string key used in `byImpact`. -/
def impactToString : BotImpact → String
  | .low => "low"
  | .medium => "medium"
  | .high => "high"
  | .extreme => "extreme"

/-- The aggregation key of a result. -/
def resultCategoryKey (r : DetectionResult) : String :=
  jsOr r.classification.subcategory (categoryToString r.classification.category)

/-- Accumulate one result into a keyed aggregation record. -/
def addAgg (m : List (String × AggEntry)) (k : String) (req bw : Int) :
    List (String × AggEntry) :=
  if m.any (fun p => p.1 == k) then
    m.map (fun p =>
      if p.1 == k then (p.1, { requests := p.2.requests + req,
                               bandwidth := p.2.bandwidth + bw })
      else p)
  else m ++ [(k, { requests := req, bandwidth := bw })]

/-- `results.sort((a, b) => b.bandwidth - a.bandwidth)`: stable descending
sort by bandwidth (the source sorts the results array in place, so the
returned `bots` list is this sorted order). -/
def sortByBandwidthDesc (rs : List DetectionResult) : List DetectionResult :=
  List.insertionSort (fun a b => b.bandwidth ≤ a.bandwidth) rs

/-- `aggregateResults`: batch summary, aggregations and the (in-place
sorted) bot list.  The `byCategory`/`byImpact` loops run over the results
in pre-sort order, as in the source. -/
def aggregateResults (results : List DetectionResult)
    (allLogs : List DetectionLogEntry) : BotAnalysis :=
  let totalRequests : Int := allLogs.length
  let botRequests : Int := (results.map (fun r => r.requestCount)).sum
  let humanRequests := totalRequests - botRequests
  let totalBandwidth := (allLogs.map (fun l => l.bytes_transferred)).sum
  let timeRange : TimeRange := { start := tsMinList allLogs, stop := tsMaxList allLogs }
  let byCategory := results.foldl
    (fun m r => addAgg m (resultCategoryKey r) r.requestCount r.bandwidth) []
  let byImpact := results.foldl
    (fun m r => addAgg m (impactToString r.classification.impact)
      r.requestCount r.bandwidth) []
  let sortedResults := sortByBandwidthDesc results
  let topOffenders := sortedResults.take 10
  { summary :=
      { totalRequests := totalRequests, botRequests := botRequests,
        humanRequests := humanRequests, totalBandwidth := totalBandwidth,
        timeRange := timeRange }
    bots := sortedResults
    aggregations :=
      { byCategory := byCategory, byImpact := byImpact,
        topOffenders := topOffenders } }

/-- `createEmptyAnalysis` (`new Date()` is the `now` parameter). -/
def createEmptyAnalysis (now : Int) : BotAnalysis :=
  { summary :=
      { totalRequests := 0, botRequests := 0, humanRequests := 0,
        totalBandwidth := 0, timeRange := { start := now, stop := now } }
    bots := []
    aggregations := { byCategory := [], byImpact := [], topOffenders := [] } }

/-- `classify`: group into sessions, classify each, keep results with
confidence above 0.3, aggregate. -/
def classify (pf : List DetectionLogEntry → CrawlPattern)
    (bf : List DetectionLogEntry → List SessionBehavior)
    (reg : List EnhancedBotSignature) (detect : String → BasicDetection)
    (w : ConfidenceWeights) (sqrtFn : ℚ → ℚ) (cfg : VelocityConfig) (now : Int)
    (logs : List DetectionLogEntry) : BotAnalysis :=
  match logs with
  | [] => createEmptyAnalysis now
  | _ =>
    let sessions := groupIntoSessions logs
    let results := sessions.filterMap (classifySession pf bf reg detect w sqrtFn cfg now)
    let botResults := results.filter (fun r => decide (r.classification.confidence > 0.3))
    aggregateResults botResults logs

/-! ## Processing pipeline (`pipeline.ts`) and engine entry points -/

/-- `ProcessingConfig` of the pipeline. -/
structure ProcessingConfig where
  chunkSize : Int
  maxConcurrentChunks : Int
  timeWindowHours : Int
  maxMemoryMB : Int
  enableProgress : Bool
  deriving DecidableEq, Repr

/-- The `DetectionPipeline` constructor defaults. -/
def defaultProcessingConfig : ProcessingConfig :=
  { chunkSize := 5000, maxConcurrentChunks := 3, timeWindowHours := 48,
    maxMemoryMB := 512, enableProgress := true }

/-- `ProcessingResult`.  `logs` is optional because `createEmptyResult`'s
object literal omits the field (it is `undefined` on the empty path).
`processingTime`/`memoryPeak` are wall-clock/heap probes, modelled as `0`. -/
structure ProcessingResult where
  analysis : BotAnalysis
  processingTime : Int
  chunksProcessed : Int
  totalLogs : Int
  memoryPeak : Int
  logs : Option (List DetectionLogEntry)
  deriving DecidableEq, Repr

/-- `filterRecentLogs`: keep entries with
`timestamp >= now - timeWindowHours` (the source computes the cutoff with
`setHours`, i.e. subtracting `timeWindowHours` hours from `now`). -/
def filterRecentLogs (now : Int) (timeWindowHours : Int)
    (logs : List DetectionLogEntry) : List DetectionLogEntry :=
  let cutoff := now - timeWindowHours * 3600000
  logs.filter (fun l => decide (l.timestamp ≥ cutoff))

/-- `createEmptyResult` (`new Date()` is the `now` parameter; the
instantaneous-clock abstraction makes `processingTime` zero). -/
def createEmptyResult (now : Int) : ProcessingResult :=
  { analysis := createEmptyAnalysis now
    processingTime := 0
    chunksProcessed := 0
    totalLogs := 0
    memoryPeak := 0
    logs := none }

/-- `processRecentLogs`: recency-filter, then either the empty result or
the chunked streaming stage (`processLogsStreaming`).  Chunking, the
concurrency semaphore and the memory probe only schedule the normalization
work, so the streaming stage is a parameter here; the theorems below
quantify over it. -/
def processRecentLogs (streaming : List DetectionLogEntry → ProcessingResult)
    (now : Int) (pcfg : ProcessingConfig)
    (logs : List DetectionLogEntry) : ProcessingResult :=
  let recentLogs := filterRecentLogs now pcfg.timeWindowHours logs
  match recentLogs with
  | [] => createEmptyResult now
  | _ => streaming recentLogs

/-- The `[startTime, endTime]` membership test of
`CoreDetectionEngine.analyzeTimeRange` / `DetectionPipeline.processTimeRange`. -/
def inTimeRange (startT endT : Int) (l : DetectionLogEntry) : Bool :=
  decide (l.timestamp ≥ startT) && decide (l.timestamp ≤ endT)

/-- `CoreDetectionEngine.analyze`: delegates to the pipeline
(cost integration is outside the core). -/
def analyzeEngine (streaming : List DetectionLogEntry → ProcessingResult)
    (now : Int) (pcfg : ProcessingConfig)
    (logs : List DetectionLogEntry) : ProcessingResult :=
  processRecentLogs streaming now pcfg logs

/-- `CoreDetectionEngine.analyzeTimeRange`: filter to the explicit window,
then `analyze` (which still applies the recency filter). -/
def analyzeTimeRange (streaming : List DetectionLogEntry → ProcessingResult)
    (now : Int) (pcfg : ProcessingConfig) (logs : List DetectionLogEntry)
    (startT endT : Int) : ProcessingResult :=
  analyzeEngine streaming now pcfg (logs.filter (inTimeRange startT endT))

/-- The entry list that reaches the heavy processing stage
(`processLogsStreaming`) along
`analyzeTimeRange -> analyze -> processRecentLogs`: the explicit-window
filter composed with the recency filter. -/
def retainedForProcessing (now : Int) (pcfg : ProcessingConfig)
    (startT endT : Int) (logs : List DetectionLogEntry) :
    List DetectionLogEntry :=
  filterRecentLogs now pcfg.timeWindowHours (logs.filter (inTimeRange startT endT))

/-- The session map lookup of `annotateLogs`: `Map.set` overwrites, so the
last detection with the (truthy) behavior session id wins.  Callers only
query truthy ids. -/
def lastDetectionFor (dets : List DetectionResult) (sid : String) :
    Option DetectionResult :=
  (dets.filter (fun d => decide (d.analysis.behavior.sessionId = sid))).getLast?

/-- The per-row body of `annotateLogs`' `logs.map`. -/
def annotateRow (dets : List DetectionResult) (log : DetectionLogEntry) :
    DetectionLogEntry :=
  match truthyStr log.sessionId with
  | none => log
  | some sid =>
    match lastDetectionFor dets sid with
    | none => log
    | some d =>
      { log with
        is_bot := true
        bot_name := d.classification.botName
        bot_category := some (jsOr d.classification.subcategory
          (categoryToString d.classification.category)) }

/-- `annotateLogs`: early return on an empty side, else map each row. -/
def annotateLogs (logs : List DetectionLogEntry)
    (dets : List DetectionResult) : List DetectionLogEntry :=
  if logs.isEmpty || dets.isEmpty then logs
  else logs.map (annotateRow dets)

/-! ## Spec-side definitions and concrete fixtures -/

/-- Modelled from the spec: the batch-wide per-IP velocity pass —
"all entries for one IP (pooled across sessions)"; the velocity analysis
of every entry of the batch sharing the given IP key. -/
def batchVelocityForIP (sqrtFn : ℚ → ℚ) (cfg : VelocityConfig)
    (batch : List DetectionLogEntry) (ip : String) : VelocityAnalysis :=
  analyzeIPVelocity sqrtFn cfg ip (batch.filter (fun e => decide (ipKeyOf e = ip)))

/-- Modelled from the spec: exact IPv4 CIDR containment — the 32-bit value
of the address lies in the block of the CIDR base at the given prefix. -/
def specCIDRMember (base : Nat) (p : Nat) (v : Nat) : Bool :=
  let block := 2 ^ (32 - p)
  decide (base / block * block ≤ v) && decide (v ≤ base / block * block + (block - 1))

/-- The 32-bit value of a dotted quad. -/
def ipv4Val (a b c d : Nat) : Nat := ((a * 256 + b) * 256 + c) * 256 + d

/-- A minimal log entry fixture. -/
def mkEntry (ts : Int) (ip ua : String) : DetectionLogEntry :=
  { timestamp := ts, ip_address := some ip, user_agent := some ua }

/-- A trivial pattern analyzer instantiation for closed fixtures. -/
def pf0 : List DetectionLogEntry → CrawlPattern := fun _ =>
  { type := .random, confidence := 0, paths := []
    indicators := { sequentialScore := 0, systematicScore := 0,
                    sitemapAccess := false, depthConsistency := 0 } }

/-- A trivial behavior analyzer instantiation for closed fixtures. -/
def bf0 : List DetectionLogEntry → List SessionBehavior := fun _ => []

/-- A trivial legacy detector instantiation for closed fixtures. -/
def detect0 : String → BasicDetection := fun _ => { isBot := false }

/-- A trivial square root instantiation for closed fixtures
(only ever applied to variance `0` in them). -/
def sqrt0 : ℚ → ℚ := fun _ => 0

/-- 200 requests from one IP spaced 5 ms apart (all within one second). -/
def batch200 : List DetectionLogEntry :=
  (List.range 200).map (fun i => mkEntry (5 * (i : Int)) "10.0.0.1" "RapidBot/1.0")

/-- Fixture entries: one IP, two user agents. -/
def entryA : DetectionLogEntry := mkEntry 0 "9.9.9.9" "AgentA"

/-- Second fixture entry sharing `entryA`'s IP under another user agent. -/
def entryB : DetectionLogEntry := mkEntry 100 "9.9.9.9" "AgentB"

/-- The classified results of every session group of a batch. -/
def sessionResults (pf : List DetectionLogEntry → CrawlPattern)
    (bf : List DetectionLogEntry → List SessionBehavior)
    (reg : List EnhancedBotSignature) (detect : String → BasicDetection)
    (w : ConfidenceWeights) (sqrtFn : ℚ → ℚ) (cfg : VelocityConfig) (now : Int)
    (logs : List DetectionLogEntry) : List DetectionResult :=
  (groupIntoSessions logs).filterMap (classifySession pf bf reg detect w sqrtFn cfg now)

/-- The session results surviving the `confidence > 0.3` filter. -/
def survivorResults (pf : List DetectionLogEntry → CrawlPattern)
    (bf : List DetectionLogEntry → List SessionBehavior)
    (reg : List EnhancedBotSignature) (detect : String → BasicDetection)
    (w : ConfidenceWeights) (sqrtFn : ℚ → ℚ) (cfg : VelocityConfig) (now : Int)
    (logs : List DetectionLogEntry) : List DetectionResult :=
  (sessionResults pf bf reg detect w sqrtFn cfg now logs).filter
    (fun r => decide (r.classification.confidence > 0.3))

/-- A surviving detection fixture whose behavior session id is `s1`. -/
def detS1 : DetectionResult :=
  { ip := "9.9.9.9"
    userAgent := "AgentA"
    classification :=
      { botName := some "TestBot", category := .extractive
        subcategory := some "crawler", confidence := 0.9, verified := false
        impact := .low, metadata := {} }
    requestCount := 1
    bandwidth := 0
    timeRange := { start := 0, stop := 0 }
    analysis :=
      { velocity :=
          { ip := "9.9.9.9", requestsPerSecond := 0, requestsPerMinute := 0,
            burstScore := 0, isBot := true, confidence := 0.5 }
        pattern :=
          { type := .random, confidence := 0, paths := []
            indicators := { sequentialScore := 0, systematicScore := 0,
                            sitemapAccess := false, depthConsistency := 0 } }
        behavior :=
          { sessionId := "s1", sessionDuration := 0, pagesViewed := 1,
            avgTimePerPage := 0, assetsLoaded := false, hasReferer := false,
            humanScore := 0.1
            patterns := { viewsHomepage := false, varyingResponseTimes := false,
                          realisticSessionLength := false } } } }

/-- A log row fixture carrying session id `s1`. -/
def rowS1 : DetectionLogEntry :=
  { timestamp := 0, ip_address := some "9.9.9.9", user_agent := some "AgentA",
    sessionId := some "s1" }

/-- A registered signature with user-agent patterns but no IP ranges. -/
def plainBotSig : EnhancedBotSignature :=
  { name := "PlainBot", category := .malicious, subcategory := "scraper"
    patterns := [fun ua => containsCI "PlainBot" ua]
    ipRanges := none
    impact := .low
    metadata := {} }

/-! ## Theorems -/

/-- Claim C8: for a (nonempty) group of entries from one IP, the velocity
isBot verdict is true exactly when requestsPerSecond exceeds the configured
maximum, or requestsPerMinute exceeds its maximum, or burstScore exceeds
0.8, or more than 50% of the inter-arrival intervals are below
minIntervalMs, or the most common 100 ms-rounded interval bucket covers
more than 70% of the intervals; and 200 requests within one second are
classified isBot = true under the default thresholds. -/
theorem velocity_isBot_characterization :
    (∀ (f : ℚ → ℚ) (cfg : VelocityConfig) (ip : String)
        (reqs : List DetectionLogEntry), reqs ≠ [] →
      ((analyzeIPVelocity f cfg ip reqs).isBot = true ↔
        ((analyzeIPVelocity f cfg ip reqs).requestsPerSecond > cfg.maxRequestsPerSecond ∨
         (analyzeIPVelocity f cfg ip reqs).requestsPerMinute > cfg.maxRequestsPerMinute ∨
         (analyzeIPVelocity f cfg ip reqs).burstScore > 0.8 ∨
         ((fastIntervalCount cfg (sessionIntervals reqs) : ℚ) >
           ((sessionIntervals reqs).length : ℚ) * 0.5) ∨
         ((maxBucketCount (sessionIntervals reqs) : ℚ) >
           ((sessionIntervals reqs).length : ℚ) * 0.7)))) ∧
    (analyzeIPVelocity sqrt0 defaultVelocityConfig "10.0.0.1" batch200).isBot = true := by
  constructor
  · intro f cfg ip reqs h
    cases reqs with
    | nil => exact absurd rfl h
    | cons x xs =>
      simp only [analyzeIPVelocity, isBotLikeVelocity, sessionIntervals,
        Bool.or_eq_true, decide_eq_true_eq, or_assoc]
  · decide

/-- Witness for C8: the characterization applied at a concrete one-entry
group, its nonemptiness hypothesis discharged. -/
theorem velocity_isBot_characterization_witness :
    ([entryA] : List DetectionLogEntry) ≠ [] ∧
    ((analyzeIPVelocity sqrt0 defaultVelocityConfig "9.9.9.9" [entryA]).isBot = true ↔
      ((analyzeIPVelocity sqrt0 defaultVelocityConfig "9.9.9.9" [entryA]).requestsPerSecond >
         defaultVelocityConfig.maxRequestsPerSecond ∨
       (analyzeIPVelocity sqrt0 defaultVelocityConfig "9.9.9.9" [entryA]).requestsPerMinute >
         defaultVelocityConfig.maxRequestsPerMinute ∨
       (analyzeIPVelocity sqrt0 defaultVelocityConfig "9.9.9.9" [entryA]).burstScore > 0.8 ∨
       ((fastIntervalCount defaultVelocityConfig (sessionIntervals [entryA]) : ℚ) >
         ((sessionIntervals [entryA]).length : ℚ) * 0.5) ∨
       ((maxBucketCount (sessionIntervals [entryA]) : ℚ) >
         ((sessionIntervals [entryA]).length : ℚ) * 0.7))) :=
  ⟨by decide,
   velocity_isBot_characterization.1 sqrt0 defaultVelocityConfig "9.9.9.9" [entryA]
     (by decide)⟩

/-- The `ip` field of a velocity analysis is the analyzed key. -/
theorem analyzeIPVelocity_ip (f : ℚ → ℚ) (cfg : VelocityConfig) (k : String)
    (l : List DetectionLogEntry) : (analyzeIPVelocity f cfg k l).ip = k := by
  cases l <;> rfl

/-- The dedup fold only ever appends to its accumulator. -/
theorem dedup_foldl_extends (ks : List String) : ∀ acc : List String,
    ∃ ys, ks.foldl (fun acc k => if acc.contains k then acc else acc ++ [k]) acc =
      acc ++ ys := by
  induction ks with
  | nil => intro acc; exact ⟨[], by simp⟩
  | cons k ks ih =>
    intro acc
    simp only [List.foldl_cons]
    by_cases h : acc.contains k
    · rw [if_pos h]; exact ih acc
    · rw [if_neg h]
      obtain ⟨ys, hys⟩ := ih (acc ++ [k])
      refine ⟨k :: ys, ?_⟩
      rw [hys, List.append_assoc]
      rfl

/-- The first grouping key is the key of the first entry. -/
theorem dedupKeys_cons (k : String) (ks : List String) :
    ∃ ys, dedupKeys (k :: ks) = k :: ys := by
  obtain ⟨ys, hys⟩ := dedup_foldl_extends ks [k]
  exact ⟨ys, by simpa [dedupKeys] using hys⟩

/-- Claim C1 (amended): the velocity analysis attached to a session by
`classifySession` is computed from that session's own entries only — the
entries of the group whose IP key equals the session's IP — not from a
batch-wide per-IP pool. -/
theorem classifySession_velocity_session_local
    (pf : List DetectionLogEntry → CrawlPattern)
    (bf : List DetectionLogEntry → List SessionBehavior)
    (reg : List EnhancedBotSignature) (detect : String → BasicDetection)
    (w : ConfidenceWeights) (f : ℚ → ℚ) (cfg : VelocityConfig) (now : Int)
    (h : DetectionLogEntry) (t : List DetectionLogEntry) :
    (classifySession pf bf reg detect w f cfg now (h :: t)).map
        (fun r => r.analysis.velocity) =
      some (analyzeIPVelocity f cfg (ipKeyOf h)
        ((h :: t).filter (fun e => decide (ipKeyOf e = ipKeyOf h)))) := by
  obtain ⟨ys, hys⟩ := dedupKeys_cons (ipKeyOf h) (t.map ipKeyOf)
  simp only [classifySession, analyzeVelocity, groupByIP, List.map_cons, hys,
    Option.map_some, List.find?_cons, analyzeIPVelocity_ip]
  simp [ipKeyOf]

/-- Counterexample to C1 as stated: in a batch holding a second session
with the same IP under another user agent, the velocity attached to the
first session differs from the batch-wide pooled per-IP analysis. -/
theorem classifySession_velocity_not_batch_pooled :
    [entryA] ∈ groupIntoSessions [entryA, entryB] ∧
    (classifySession pf0 bf0 [] detect0 defaultWeights sqrt0 defaultVelocityConfig 0
        [entryA]).map (fun r => r.analysis.velocity) ≠
      some (batchVelocityForIP sqrt0 defaultVelocityConfig [entryA, entryB] "9.9.9.9") := by
  exact ⟨by decide, by decide⟩

/-- The sequential confidence adjustments equal one clamped sum. -/
theorem adjustConfidence_eq_sum (b : ℚ) (vel : VelocityAnalysis)
    (pat : CrawlPattern) (beh : SessionBehavior) :
    adjustConfidenceWithOtherAnalyses b vel pat beh =
      jsMax 0.1 (jsMin 1 (b
        + (if vel.isBot then 0.1 else if vel.confidence > 0.7 then -0.1 else 0)
        + (if pat.confidence > 0.7 then 0.1 else 0)
        + (if beh.humanScore < 0.3 then 0.1
           else if beh.humanScore > 0.7 then -0.15 else 0))) := by
  unfold adjustConfidenceWithOtherAnalyses
  split_ifs <;> first
    | rfl
    | ring_nf

/-- Claim C7: with a signature match, the fused classification is the
signature classification verbatim except the confidence, which is the
signature confidence plus 0.1 for an isBot velocity (minus 0.1 for a
non-bot velocity of confidence above 0.7), plus 0.1 for pattern confidence
above 0.7, plus 0.1 for a behavior humanScore below 0.3 (minus 0.15 above
0.7), clamped to the interval from 0.1 to 1. -/
theorem fusion_with_signature_verbatim (w : ConfidenceWeights)
    (vel : VelocityAnalysis) (pat : CrawlPattern) (sig : BotClassification)
    (beh : SessionBehavior) :
    combineAnalysis w vel pat (some sig) beh =
      { sig with confidence :=
          (jsMax 0.1 (jsMin 1 (sig.confidence
            + (if vel.isBot then 0.1 else if vel.confidence > 0.7 then -0.1 else 0)
            + (if pat.confidence > 0.7 then 0.1 else 0)
            + (if beh.humanScore < 0.3 then 0.1
               else if beh.humanScore > 0.7 then -0.15 else 0)))) } := by
  simp only [combineAnalysis]
  rw [adjustConfidence_eq_sum]

/-- From IP-verified base confidence 0.95, the heuristic adjustments never
go below 0.75. -/
theorem applyAdditional_ge_075 (sig : EnhancedBotSignature) (ua : String) :
    0.75 ≤ applyAdditionalVerification 0.95 sig ua := by
  unfold applyAdditionalVerification jsMin jsMax
  rcases sig.verification with _ | v
  · split_ifs <;> norm_num
  · cases hr : v.reverseDns.isSome <;> cases hh : v.headers.isSome <;>
      simp only [hr, hh, Bool.false_eq_true, if_false, if_true, ite_true, ite_false] <;>
      split_ifs <;> norm_num at *

/-- From IP-verified base confidence 0.95, the result stays at or above 0.9
when the user agent matches no generic-library pattern. -/
theorem applyAdditional_ge_09 (sig : EnhancedBotSignature) (ua : String)
    (h : suspiciousUA ua = false) :
    0.9 ≤ applyAdditionalVerification 0.95 sig ua := by
  unfold applyAdditionalVerification jsMin jsMax
  rcases sig.verification with _ | v
  · simp only [h, Bool.false_eq_true, if_false, ite_false]
    split_ifs <;> norm_num at *
  · cases hr : v.reverseDns.isSome <;> cases hh : v.headers.isSome <;>
      simp only [hr, hh, h, Bool.false_eq_true, if_false, if_true, ite_true, ite_false] <;>
      split_ifs <;> norm_num at *

/-- Claim C2 (amended): when the first pattern-matching signature declares
CIDR ranges and the entry IP lies inside them, the classification has
verified = true and confidence at least 0.75 — at least 0.9 whenever the
user agent does not also match a generic-library (suspicious) pattern —
and the concrete Googlebot case holds as stated: user agent
`Googlebot/2.1` from `66.249.64.50` gives botName Googlebot, category
beneficial, verified = true, confidence at least 0.9. -/
theorem signature_verified_confidence :
    (∀ (reg : List EnhancedBotSignature) (ua ip : String)
        (sig : EnhancedBotSignature) (ranges : List String),
      findFirstMatch reg ua = some sig →
      sig.ipRanges = some ranges →
      ip ≠ "" →
      isIPInRanges ip ranges = true →
      ∃ c, matchEnhancedSignature reg ua (some ip) = some c ∧ c.verified = true ∧
        0.75 ≤ c.confidence ∧ (suspiciousUA ua = false → 0.9 ≤ c.confidence)) ∧
    ((matchEnhancedSignature builtinSignatures "Googlebot/2.1"
        (some "66.249.64.50")).map
        (fun c => (c.botName, c.category, c.verified, decide (0.9 ≤ c.confidence))) =
      some (some "Googlebot", BotCategory.beneficial, true, true)) := by
  constructor
  · intro reg ua ip sig ranges h1 h2 h3 h4
    have ht : truthyStr (some ip) = some ip := by simp [truthyStr, h3]
    have hv : sigIPVerified sig (some ip) = true := by
      simp [sigIPVerified, h2, ht, h4]
    have hb : sigBaseConfidence sig (some ip) = 0.95 := by
      simp [sigBaseConfidence, h2, hv]
    refine ⟨classifyFromSignature sig ua (some ip), ?_, ?_, ?_, ?_⟩
    · simp [matchEnhancedSignature, h1]
    · simpa [classifyFromSignature] using hv
    · show 0.75 ≤ applyAdditionalVerification (sigBaseConfidence sig (some ip)) sig ua
      rw [hb]
      exact applyAdditional_ge_075 sig ua
    · intro hs
      show 0.9 ≤ applyAdditionalVerification (sigBaseConfidence sig (some ip)) sig ua
      rw [hb]
      exact applyAdditional_ge_09 sig ua hs
  · decide

/-- Counterexample to C2 as stated: `GPTBot/1.0 curl` from an IP inside
OpenAI's declared range is verified, yet the generic-library penalty
leaves its confidence at 0.75, below the claimed 0.9 bound. -/
theorem signature_verified_confidence_cex :
    (matchEnhancedSignature builtinSignatures "GPTBot/1.0 curl"
        (some "20.171.0.5")).map (fun c => (c.verified, c.confidence)) =
      some (true, 0.75) ∧
    ¬ (0.9 ≤ (0.75 : ℚ)) := ⟨by decide, by decide⟩

/-- Witness for C2: the amended statement applied at the concrete
Googlebot input, every hypothesis discharged. -/
theorem signature_verified_confidence_witness :
    findFirstMatch builtinSignatures "Googlebot/2.1" = some googlebotSig ∧
    (∃ c, matchEnhancedSignature builtinSignatures "Googlebot/2.1"
        (some "66.249.64.50") = some c ∧ c.verified = true ∧
      0.75 ≤ c.confidence ∧
      (suspiciousUA "Googlebot/2.1" = false → 0.9 ≤ c.confidence)) :=
  ⟨rfl, signature_verified_confidence.1 builtinSignatures "Googlebot/2.1"
    "66.249.64.50" googlebotSig ["66.249.64.0/19", "66.249.64.0/27", "209.85.128.0/17"]
    rfl rfl (by decide) (by decide)⟩

/-- Claim C3 (amended): on a pattern match the confidence before the
heuristic adjustments is 0.75 when the signature declares no IP ranges
(pattern-only), 0.95 when the IP verified against the declared ranges,
0.30 when an IP is present but outside all declared ranges, and 0.60 when
ranges are declared but the entry has no IP to check; the output
confidence is that base put through applyAdditionalVerification.  The
concrete spoof case holds: a UA matching the GPTBot pattern with IP
1.2.3.4 yields verified = false and confidence 0.35 <= 0.4. -/
theorem signature_base_confidence :
    (∀ (reg : List EnhancedBotSignature) (ua : String) (ip : Option String)
        (sig : EnhancedBotSignature),
      findFirstMatch reg ua = some sig →
      ((matchEnhancedSignature reg ua ip).map (fun c => c.confidence) =
        some (applyAdditionalVerification (sigBaseConfidence sig ip) sig ua) ∧
       sigBaseConfidence sig ip =
         (if sig.ipRanges = none then 0.75
          else if sigIPVerified sig ip = true then 0.95
          else if (truthyStr ip).isSome = true then 0.3
          else 0.6))) ∧
    ((matchEnhancedSignature builtinSignatures "GPTBot/1.0" (some "1.2.3.4")).map
        (fun c => (c.verified, decide (c.confidence ≤ 0.4), c.confidence)) =
      some (false, true, 0.35)) := by
  constructor
  · intro reg ua ip sig h1
    constructor
    · simp [matchEnhancedSignature, h1, classifyFromSignature]
    · rcases hR : sig.ipRanges with _ | ranges
      · simp [sigBaseConfidence, hR]
      · cases hv : sigIPVerified sig ip
        · cases hts : (truthyStr ip).isSome
          · simp [sigBaseConfidence, sigIPSpoof, hv, hts, hR]
          · simp [sigBaseConfidence, sigIPSpoof, hv, hts, hR]
        · simp [sigBaseConfidence, hv, hR]
  · decide

/-- Counterexample to C3 as stated: a matched signature with no declared
IP ranges keeps base (and final) confidence 0.75, not the claimed 0.60. -/
theorem signature_base_confidence_cex :
    (matchEnhancedSignature [plainBotSig] "PlainBot" (some "1.2.3.4")).map
        (fun c => c.confidence) = some 0.75 ∧ (0.75 : ℚ) ≠ 0.6 :=
  ⟨by decide, by decide⟩

/-- Witness for C3: the amended statement applied at the concrete GPTBot
spoof input, its hypothesis discharged. -/
theorem signature_base_confidence_witness :
    findFirstMatch builtinSignatures "GPTBot/1.0" = some gptbotSig ∧
    ((matchEnhancedSignature builtinSignatures "GPTBot/1.0" (some "1.2.3.4")).map
        (fun c => c.confidence) =
      some (applyAdditionalVerification
        (sigBaseConfidence gptbotSig (some "1.2.3.4")) gptbotSig "GPTBot/1.0") ∧
     sigBaseConfidence gptbotSig (some "1.2.3.4") =
       (if gptbotSig.ipRanges = none then 0.75
        else if sigIPVerified gptbotSig (some "1.2.3.4") = true then 0.95
        else if (truthyStr (some "1.2.3.4")).isSome = true then 0.3
        else 0.6)) :=
  ⟨rfl, signature_base_confidence.1 builtinSignatures "GPTBot/1.0"
    (some "1.2.3.4") gptbotSig rfl⟩

/-- Claim C5 (code behavior at the failing input): CIDR containment is NOT
exact for addresses or bases with first octet at least 128 — the
JavaScript `<<` in `ipToBigInt` reinterprets the 32-bit result as signed,
so `209.85.128.1` parses to a negative value and fails to match
`209.85.128.0/17` (a range registered for Googlebot in this very file)
although exact containment holds; containment is exact on the
positive-range case, and invalid prefixes, malformed addresses and IPv6
are treated as non-matching rather than errors. -/
theorem cidr_signed_shift_bug :
    ipToBigInt "209.85.128.1" = some (-782925823) ∧
    isIPInRanges "209.85.128.1" ["209.85.128.0/17"] = false ∧
    specCIDRMember (ipv4Val 209 85 128 0) 17 (ipv4Val 209 85 128 1) = true ∧
    isIPInRanges "66.249.64.50" ["66.249.64.0/19"] = true ∧
    specCIDRMember (ipv4Val 66 249 64 0) 19 (ipv4Val 66 249 64 50) = true ∧
    isIPInRanges "1.2.3.4" ["1.2.3.0/33"] = false ∧
    isIPInRanges "1.2.3.4" ["1.2.3.0/-1"] = false ∧
    isIPInRanges "1.2.3" ["1.2.3.0/24"] = false ∧
    isIPInRanges "1.2.3.999" ["1.2.3.0/24"] = false ∧
    isIPInRanges "2001:db8::1" ["1.2.3.0/24"] = false := by
  decide

/-- Claim C6: for a non-empty batch the output bot list is (a permutation
of — the source sorts it by bandwidth) exactly the session results with
confidence above 0.3; summary.totalRequests counts every entry of the
batch including those of dropped sessions, summary.botRequests is the sum
of requestCount over the surviving results, and summary.humanRequests is
totalRequests minus botRequests. -/
theorem classify_confidence_filter
    (pf : List DetectionLogEntry → CrawlPattern)
    (bf : List DetectionLogEntry → List SessionBehavior)
    (reg : List EnhancedBotSignature) (detect : String → BasicDetection)
    (w : ConfidenceWeights) (f : ℚ → ℚ) (cfg : VelocityConfig) (now : Int)
    (logs : List DetectionLogEntry) (hne : logs ≠ []) :
    (classify pf bf reg detect w f cfg now logs).bots.Perm
        (survivorResults pf bf reg detect w f cfg now logs) ∧
    (classify pf bf reg detect w f cfg now logs).summary.totalRequests =
        (logs.length : Int) ∧
    (classify pf bf reg detect w f cfg now logs).summary.botRequests =
        ((survivorResults pf bf reg detect w f cfg now logs).map
          (fun r => r.requestCount)).sum ∧
    (classify pf bf reg detect w f cfg now logs).summary.humanRequests =
        (logs.length : Int) -
          ((survivorResults pf bf reg detect w f cfg now logs).map
            (fun r => r.requestCount)).sum := by
  cases logs with
  | nil => exact absurd rfl hne
  | cons x xs =>
    refine ⟨?_, rfl, rfl, rfl⟩
    exact List.perm_insertionSort _ _

/-- Witness for C6: the theorem applied at a concrete one-entry batch. -/
theorem classify_confidence_filter_witness :
    ([entryA] : List DetectionLogEntry) ≠ [] ∧
    ((classify pf0 bf0 [] detect0 defaultWeights sqrt0 defaultVelocityConfig 0
        [entryA]).bots.Perm
        (survivorResults pf0 bf0 [] detect0 defaultWeights sqrt0
          defaultVelocityConfig 0 [entryA]) ∧
     (classify pf0 bf0 [] detect0 defaultWeights sqrt0 defaultVelocityConfig 0
        [entryA]).summary.totalRequests = (([entryA] : List DetectionLogEntry).length : Int) ∧
     (classify pf0 bf0 [] detect0 defaultWeights sqrt0 defaultVelocityConfig 0
        [entryA]).summary.botRequests =
       ((survivorResults pf0 bf0 [] detect0 defaultWeights sqrt0
          defaultVelocityConfig 0 [entryA]).map (fun r => r.requestCount)).sum ∧
     (classify pf0 bf0 [] detect0 defaultWeights sqrt0 defaultVelocityConfig 0
        [entryA]).summary.humanRequests =
       (([entryA] : List DetectionLogEntry).length : Int) -
         ((survivorResults pf0 bf0 [] detect0 defaultWeights sqrt0
            defaultVelocityConfig 0 [entryA]).map (fun r => r.requestCount)).sum) :=
  ⟨by decide,
   classify_confidence_filter pf0 bf0 [] detect0 defaultWeights sqrt0
     defaultVelocityConfig 0 [entryA] (by decide)⟩

/-- Claim C9: when the batch is empty after the recency filter (which
includes an empty input batch), the pipeline returns the well-formed
zero-valued result without error: zero summary counters, an empty bot
list, empty aggregations, and a present (non-null) timeRange. -/
theorem pipeline_empty_batch
    (streaming : List DetectionLogEntry → ProcessingResult) (now : Int)
    (pcfg : ProcessingConfig) (logs : List DetectionLogEntry)
    (h : filterRecentLogs now pcfg.timeWindowHours logs = []) :
    processRecentLogs streaming now pcfg logs = createEmptyResult now ∧
    (processRecentLogs streaming now pcfg logs).analysis.summary.totalRequests = 0 ∧
    (processRecentLogs streaming now pcfg logs).analysis.summary.botRequests = 0 ∧
    (processRecentLogs streaming now pcfg logs).analysis.summary.humanRequests = 0 ∧
    (processRecentLogs streaming now pcfg logs).analysis.summary.totalBandwidth = 0 ∧
    (processRecentLogs streaming now pcfg logs).analysis.bots = [] ∧
    (processRecentLogs streaming now pcfg logs).analysis.aggregations.byCategory = [] ∧
    (processRecentLogs streaming now pcfg logs).analysis.aggregations.byImpact = [] ∧
    (processRecentLogs streaming now pcfg logs).analysis.aggregations.topOffenders = [] ∧
    (processRecentLogs streaming now pcfg logs).analysis.summary.timeRange =
      { start := now, stop := now } := by
  have he : processRecentLogs streaming now pcfg logs = createEmptyResult now := by
    simp only [processRecentLogs, h]
  rw [he]
  exact ⟨rfl, rfl, rfl, rfl, rfl, rfl, rfl, rfl, rfl, rfl⟩

/-- Witness for C9: a batch holding only an entry far older than the
48-hour window is emptied by the recency filter and yields the zero
result. -/
theorem pipeline_empty_batch_witness :
    filterRecentLogs 0 defaultProcessingConfig.timeWindowHours
        [mkEntry (-1000000000000) "1.1.1.1" "OldAgent"] = [] ∧
    processRecentLogs (fun _ => createEmptyResult 7) 0 defaultProcessingConfig
        [mkEntry (-1000000000000) "1.1.1.1" "OldAgent"] = createEmptyResult 0 :=
  ⟨by decide,
   (pipeline_empty_batch (fun _ => createEmptyResult 7) 0 defaultProcessingConfig
     [mkEntry (-1000000000000) "1.1.1.1" "OldAgent"] (by decide)).1⟩

/-- Claim C4 (amended): `analyzeTimeRange` retains an entry for processing
exactly when it lies inside the explicit `[start, end]` window AND also
survives the default recency cutoff — the explicit window is applied in
addition to, not in place of, the recency filter. -/
theorem analyzeTimeRange_retention (now : Int) (pcfg : ProcessingConfig)
    (startT endT : Int) (logs : List DetectionLogEntry) (l : DetectionLogEntry) :
    l ∈ retainedForProcessing now pcfg startT endT logs ↔
      (l ∈ logs ∧ inTimeRange startT endT l = true ∧
       l.timestamp ≥ now - pcfg.timeWindowHours * 3600000) := by
  simp [retainedForProcessing, filterRecentLogs, List.mem_filter, and_assoc]
  tauto

/-- Counterexample to C4 as stated: an entry inside the explicit window but
older than the 48-hour recency cutoff is dropped, not retained — the
whole explicit-window batch comes back as the empty result. -/
theorem analyzeTimeRange_drops_old_entries :
    inTimeRange (-1000) 1000 entryA = true ∧
    entryA ∈ [entryA] ∧
    retainedForProcessing 1000000000000 defaultProcessingConfig (-1000) 1000
      [entryA] = [] ∧
    analyzeTimeRange (fun _ => createEmptyResult 7) 1000000000000
        defaultProcessingConfig [entryA] (-1000) 1000 =
      createEmptyResult 1000000000000 := by
  refine ⟨by decide, by decide, by decide, ?_⟩
  decide

/-- With no detections, a row is returned unchanged. -/
theorem annotateRow_nil (l : DetectionLogEntry) : annotateRow [] l = l := by
  unfold annotateRow lastDetectionFor
  cases truthyStr l.sessionId <;> simp

/-- Mapping the row function with no detections is the identity. -/
theorem map_annotateRow_nil (logs : List DetectionLogEntry) :
    logs.map (annotateRow []) = logs := by
  induction logs with
  | nil => rfl
  | cons x xs ih => simp [annotateRow_nil, ih]

/-- Claim C10: annotation is a frame-preserving per-row map — the output
is `logs.map` of a row function (same length, same order); a row with no
truthy sessionId, or whose sessionId has no surviving detection, comes
back unchanged; a row whose sessionId is the behavior session id of a
surviving detection differs from the input only in is_bot (true),
bot_name and bot_category, taken from that detection. -/
theorem annotateLogs_frame (logs : List DetectionLogEntry)
    (dets : List DetectionResult) :
    annotateLogs logs dets = logs.map (annotateRow dets) ∧
    (∀ l : DetectionLogEntry,
      (truthyStr l.sessionId = none → annotateRow dets l = l) ∧
      (∀ sid, truthyStr l.sessionId = some sid →
        (lastDetectionFor dets sid = none → annotateRow dets l = l) ∧
        (∀ d, lastDetectionFor dets sid = some d →
          d ∈ dets ∧ d.analysis.behavior.sessionId = sid ∧
          annotateRow dets l =
            { l with is_bot := true
                     bot_name := d.classification.botName
                     bot_category := some (jsOr d.classification.subcategory
                       (categoryToString d.classification.category)) }))) := by
  constructor
  · unfold annotateLogs
    by_cases hl : logs.isEmpty
    · rw [List.isEmpty_iff] at hl
      simp [hl]
    · by_cases hd : dets.isEmpty
      · rw [List.isEmpty_iff] at hd
        subst hd
        simp only [annotateLogs, List.isEmpty_nil, Bool.or_true, if_true]
        exact (map_annotateRow_nil logs).symm
      · simp [hl, hd]
  · intro l
    refine ⟨?_, ?_⟩
    · intro h
      simp [annotateRow, h]
    · intro sid hsid
      refine ⟨?_, ?_⟩
      · intro h
        simp [annotateRow, hsid, h]
      · intro d hd
        have hdf := List.mem_of_mem_getLast? hd
        rw [List.mem_filter] at hdf
        refine ⟨hdf.1, by simpa using hdf.2, ?_⟩
        simp [annotateRow, hsid, hd]

/-- Witness for C10: the row-level clause applied at a concrete row and
detection list, its hypotheses discharged. -/
theorem annotateLogs_frame_witness :
    truthyStr rowS1.sessionId = some "s1" ∧
    lastDetectionFor [detS1] "s1" = some detS1 ∧
    (detS1 ∈ [detS1] ∧ detS1.analysis.behavior.sessionId = "s1" ∧
     annotateRow [detS1] rowS1 =
       { rowS1 with is_bot := true
                    bot_name := detS1.classification.botName
                    bot_category := some (jsOr detS1.classification.subcategory
                      (categoryToString detS1.classification.category)) }) :=
  ⟨by decide, by decide,
   (((annotateLogs_frame [rowS1] [detS1]).2 rowS1).2 "s1" (by decide)).2 detS1
     (by decide)⟩
